import Mathlib

/-!
Shallow embedding of `src/src/embedding.rs` (the `EmbeddingGenerator`):
the error taxonomy, the model registry built by the worker's Loading
phase, the Serving loop, and the caller-side `generate_embeddings`.
The external numeric-model collaborator (`SentenceEmbeddingsModel`) is
kept opaque except for its `encode` capability, exactly as the code
treats it.
-/

namespace Indexify

/-- `EmbeddingGeneratorError` from `src/src/embedding.rs`. -/
inductive EmbeddingGeneratorError where
  | ModelNotFound : String → EmbeddingGeneratorError
  | ModelError : String → EmbeddingGeneratorError
  | ModelLoadingError : String → EmbeddingGeneratorError
  | InternalError : String → EmbeddingGeneratorError
deriving DecidableEq

/-- Modelled from the spec: `server_config::EmbeddingModelKind` is not under
`src/`. The spec describes it as "an enumerated identifier selecting which
concrete numeric embedding architecture to load"; `AllMiniLmL12V2` is the
sole kind the runner supports, and `OtherKind` stands for any of the
remaining kinds matched by the runner's `_` arm. -/
inductive EmbeddingModelKind where
  | AllMiniLmL12V2
  | OtherKind
deriving DecidableEq

/-- Modelled from the spec: `server_config::DeviceKind` is not under `src/`.
"An enumerated identifier selecting the compute target"; the runner never
inspects it. -/
inductive DeviceKind where
  | Cpu
  | OtherDevice
deriving DecidableEq

/-- Modelled from the spec: `server_config::EmbeddingModel` is not under
`src/`; per the spec a ModelConfig is \x7bmodel_kind, device_kind\x7d. -/
structure EmbeddingModel where
  model_kind : EmbeddingModelKind
  device_kind : DeviceKind
deriving DecidableEq

/-- The collaborator boundary: a loaded `SentenceEmbeddingsModel` is opaque
except for `encode(sequence of strings) -> Result<sequence of vectors, Error>`. -/
structure SentenceEmbeddingsModel where
  encode : List String → Except String (List (List Float))

/-- The worker's `HashMap<String, SentenceEmbeddingsModel>` registry, as an
association list; `registryInsert` prepends and `registryGet` takes the
first match, which is observationally `HashMap` insert-with-overwrite
(last write wins) and exact, case-sensitive lookup. -/
abbrev Registry := List (String × SentenceEmbeddingsModel)

/-- `models.insert(name, m)` of the runner's Loading phase. -/
def registryInsert (models : Registry) (name : String)
    (m : SentenceEmbeddingsModel) : Registry :=
  (name, m) :: models

/-- `models.get(&model_name)` of the runner's Serving phase. -/
def registryGet : Registry → String → Option SentenceEmbeddingsModel
  | [], _ => none
  | (k, v) :: rest, name => if k = name then some v else registryGet rest name

/-- The Loading phase of `EmbeddingGenerator::runner`: the `for model in
&models_to_load` loop. `createModel` is the outcome of
`SentenceEmbeddingsBuilder::remote(AllMiniLmL12V2).create_model()`; its
error is wrapped in `ModelLoadingError` by the code's `map_err` and aborted
with `?`, while an unsupported kind returns
`InternalError("unknown model kind")`. -/
def loadModels (createModel : Except String SentenceEmbeddingsModel) :
    List EmbeddingModel → Registry → Except EmbeddingGeneratorError Registry
  | [], models => .ok models
  | cfg :: rest, models =>
    match cfg.model_kind with
    | .AllMiniLmL12V2 =>
      match createModel with
      | .error e => .error (.ModelLoadingError e)
      | .ok m =>
        loadModels createModel rest (registryInsert models "all-minilm-l12-v2" m)
    | .OtherKind => .error (.InternalError "unknown model kind")

/-- A dequeued message, minus its reply sender: `(model_name, inputs)`. -/
structure Request where
  model_name : String
  inputs : List String

/-- The body of the runner's Serving loop for one dequeued request: the value
passed to `sender.send(...)`. Absent name: `Err(ModelNotFound(model_name))`;
present: `model.encode(&inputs)` with its error wrapped in `ModelError`. -/
def serveOne (models : Registry) (req : Request) :
    Except EmbeddingGeneratorError (List (List Float)) :=
  match registryGet models req.model_name with
  | none => .error (.ModelNotFound req.model_name)
  | some m =>
    match m.encode req.inputs with
    | .ok vecs => .ok vecs
    | .error e => .error (.ModelError e)

/-- Whether the Serving loop body reaches its `encode` call for this request:
the `continue` branch is taken exactly when the registry lookup is `None`. -/
def encodeInvoked (models : Registry) (req : Request) : Bool :=
  (registryGet models req.model_name).isSome

/-- The Serving loop over the whole (finite) stream of received requests:
one `sender.send` per iteration, and the loop never exits early — both the
`ModelNotFound` branch (`continue`) and the inference branch fall through to
the next iteration. -/
def serve (models : Registry) :
    List Request → List (Except EmbeddingGeneratorError (List (List Float)))
  | [] => []
  | req :: rest => serveOne models req :: serve models rest

/-- What a request's single-use reply channel ends up holding: either the one
value passed to `sender.send`, or nothing at all because the sender was
dropped without a send (channel closed). -/
inductive Reply where
  | sent : Except EmbeddingGeneratorError (List (List Float)) → Reply
  | closed : Reply

/-- Whether a reply slot actually received a sent response. -/
def Reply.isSent : Reply → Bool
  | .sent _ => true
  | .closed => false

/-- `EmbeddingGenerator::runner`: run the Loading phase; on a loading error
return it (all queued requests' reply senders are dropped unanswered —
their channels close), otherwise serve every request, sending exactly one
response per request, and return `Ok(())` once the stream is exhausted. -/
def runner (createModel : Except String SentenceEmbeddingsModel)
    (models_to_load : List EmbeddingModel) (reqs : List Request) :
    Except EmbeddingGeneratorError Unit × List Reply :=
  match loadModels createModel models_to_load [] with
  | .error e => (.error e, reqs.map fun _ => .closed)
  | .ok models => (.ok (), (serve models reqs).map Reply.sent)

/-- The generator handle; the Rust struct holds only the queue's sending
side, which connects it to the runner spawned with `models_to_load`. -/
structure EmbeddingGenerator where
  models_to_load : List EmbeddingModel

/-- `EmbeddingGenerator::new`: spawns the runner thread (whose error is only
logged, never returned) and unconditionally returns `Ok` with the handle. -/
def EmbeddingGenerator.new (models_to_load : List EmbeddingModel) :
    Except EmbeddingGeneratorError EmbeddingGenerator :=
  .ok ⟨models_to_load⟩

/-- What the caller's `rx` observes: `let _ = self.sender.send(...)` drops the
message — reply sender included — when the send fails, so a failed enqueue
closes the reply channel; a successful enqueue leaves the channel to the
worker. -/
def enqueueReply (sendSucceeded : Bool) (workerReply : Reply) : Reply :=
  if sendSucceeded then workerReply else .closed

/-- `EmbeddingGenerator::generate_embeddings`: await the reply channel; a sent
result is returned as-is, a closed channel surfaces
`InternalError("channel closed unexpectedly")`. -/
def generate_embeddings (sendSucceeded : Bool) (workerReply : Reply) :
    Except EmbeddingGeneratorError (List (List Float)) :=
  match enqueueReply sendSucceeded workerReply with
  | .sent r => r
  | .closed => .error (.InternalError "channel closed unexpectedly")

/-- A stand-in loaded model for concrete evaluations. -/
def dummyModel : SentenceEmbeddingsModel := ⟨fun _ => .ok []⟩

/-- Boolean success of an `Except`. -/
def exceptOk : Except ε α → Bool
  | .ok _ => true
  | .error _ => false

/-! ## Helper lemmas -/

/-- When `create_model` succeeds, a configuration list containing an
unsupported kind always makes the Loading phase fail with
`InternalError("unknown model kind")`, whatever registry has been
accumulated so far. -/
theorem loadModels_unsupported (m : SentenceEmbeddingsModel) :
    ∀ (cfg : List EmbeddingModel) (acc : Registry),
      (∃ e ∈ cfg, e.model_kind = EmbeddingModelKind.OtherKind) →
      loadModels (Except.ok m) cfg acc
        = Except.error (EmbeddingGeneratorError.InternalError "unknown model kind")
  | [], _, h => by simp at h
  | e :: rest, acc, h => by
    cases hk : e.model_kind with
    | OtherKind => simp [loadModels, hk]
    | AllMiniLmL12V2 =>
      rcases h with ⟨x, hx, hxk⟩
      rcases List.mem_cons.mp hx with rfl | hx2
      · rw [hk] at hxk; exact absurd hxk (by simp)
      · simpa [loadModels, hk] using
          loadModels_unsupported m rest
            (registryInsert acc "all-minilm-l12-v2" m) ⟨x, hx2, hxk⟩

/-- Every reply slot produced by a successful Serving phase is a sent one. -/
theorem map_isSent_sent (models : Registry) (reqs : List Request) :
    ((serve models reqs).map Reply.sent).map Reply.isSent
      = reqs.map fun _ => true := by
  induction reqs with
  | nil => rfl
  | cons r rest ih => simpa [serve, Reply.isSent] using ih

/-- Every key the Loading phase ever inserts is `"all-minilm-l12-v2"`. -/
theorem loadModels_keys (c : Except String SentenceEmbeddingsModel) :
    ∀ (cfg : List EmbeddingModel) (acc models : Registry),
      loadModels c cfg acc = Except.ok models →
      ∀ kv ∈ models, kv.1 = "all-minilm-l12-v2" ∨ kv ∈ acc
  | [], acc, models, h => by
    simp only [loadModels] at h
    cases h
    exact fun kv hkv => Or.inr hkv
  | e :: rest, acc, models, h => by
    cases hk : e.model_kind with
    | OtherKind => simp [loadModels, hk] at h
    | AllMiniLmL12V2 =>
      cases hc : c with
      | error s => rw [hc] at h; simp [loadModels, hk] at h
      | ok m =>
        rw [hc] at h
        rw [show loadModels (Except.ok m) (e :: rest) acc
              = loadModels (Except.ok m) rest
                  (registryInsert acc "all-minilm-l12-v2" m) by
            simp [loadModels, hk]] at h
        intro kv hkv
        rcases loadModels_keys (Except.ok m) rest
            (registryInsert acc "all-minilm-l12-v2" m) models h kv hkv with
          hkey | hmem
        · exact Or.inl hkey
        · rcases List.mem_cons.mp hmem with rfl | hacc
          · exact Or.inl rfl
          · exact Or.inr hacc

/-- Lookup of a name different from every key in the registry yields `none`. -/
theorem registryGet_none_of_ne (name : String) :
    ∀ models : Registry,
      (∀ kv ∈ models, kv.1 = "all-minilm-l12-v2") →
      name ≠ "all-minilm-l12-v2" →
      registryGet models name = none
  | [], _, _ => rfl
  | (k, v) :: rest, h, hn => by
    have hk : k = "all-minilm-l12-v2" := h (k, v) (List.mem_cons_self _ _)
    have hkn : ¬(k = name) := fun hh => hn (hh ▸ hk.symm).symm
    simpa [registryGet, hkn] using
      registryGet_none_of_ne name rest
        (fun kv hkv => h kv (List.mem_cons_of_mem _ hkv)) hn

/-! ## Claim theorems -/

/-- Claim C1, counterexample: constructing the generator with the unsupported
kind does not fail `new` at all — `new` returns `Ok` — and the runner's
fail-fast error is `InternalError("unknown model kind")`, which is not a
`ModelLoadingError`. -/
theorem new_ok_on_unsupported_kind :
    EmbeddingGenerator.new [⟨.OtherKind, .Cpu⟩]
        = .ok ⟨[⟨.OtherKind, .Cpu⟩]⟩ ∧
    (runner (.ok dummyModel) [⟨.OtherKind, .Cpu⟩] []).fst
        = .error (.InternalError "unknown model kind") ∧
    (EmbeddingGeneratorError.InternalError "unknown model kind"
        ≠ EmbeddingGeneratorError.ModelLoadingError "unknown model kind") :=
  ⟨rfl, rfl, by decide⟩

/-- Claim C1, amended: with a configuration containing an unsupported model
kind, `new` still returns `Ok` (the runner's error is only logged), but the
runner fails fast with `InternalError("unknown model kind")` before serving
anything: every queued request's reply channel is closed unanswered, so no
request is ever servable — each caller gets
`InternalError("channel closed unexpectedly")`. -/
theorem unsupported_kind_fail_fast
    (cfg : List EmbeddingModel) (m : SentenceEmbeddingsModel)
    (reqs : List Request)
    (h : ∃ e ∈ cfg, e.model_kind = EmbeddingModelKind.OtherKind) :
    EmbeddingGenerator.new cfg = .ok ⟨cfg⟩ ∧
    (runner (.ok m) cfg reqs).fst
        = .error (.InternalError "unknown model kind") ∧
    (runner (.ok m) cfg reqs).snd = reqs.map (fun _ => .closed) ∧
    ∀ rep ∈ (runner (.ok m) cfg reqs).snd,
      generate_embeddings true rep
        = .error (.InternalError "channel closed unexpectedly") := by
  have hl := loadModels_unsupported m cfg [] h
  refine ⟨rfl, by simp [runner, hl], by simp [runner, hl], ?_⟩
  intro rep hrep
  simp only [runner, hl, List.mem_map] at hrep
  rcases hrep with ⟨r, _, rfl⟩
  rfl

/-- Witness for C1's amended theorem at the concrete configuration
`[⟨OtherKind, Cpu⟩]` with one queued request. -/
theorem unsupported_kind_fail_fast_witness :
    (∃ e ∈ [(⟨.OtherKind, .Cpu⟩ : EmbeddingModel)],
        e.model_kind = EmbeddingModelKind.OtherKind) ∧
    (EmbeddingGenerator.new [⟨.OtherKind, .Cpu⟩] = .ok ⟨[⟨.OtherKind, .Cpu⟩]⟩ ∧
     (runner (.ok dummyModel) [⟨.OtherKind, .Cpu⟩]
         [⟨"all-minilm-l12-v2", ["Hello, world!"]⟩]).fst
        = .error (.InternalError "unknown model kind") ∧
     (runner (.ok dummyModel) [⟨.OtherKind, .Cpu⟩]
         [⟨"all-minilm-l12-v2", ["Hello, world!"]⟩]).snd
        = ([⟨"all-minilm-l12-v2", ["Hello, world!"]⟩] : List Request).map
            (fun _ => Reply.closed) ∧
     ∀ rep ∈ (runner (.ok dummyModel) [⟨.OtherKind, .Cpu⟩]
         [⟨"all-minilm-l12-v2", ["Hello, world!"]⟩]).snd,
       generate_embeddings true rep
         = .error (.InternalError "channel closed unexpectedly")) :=
  ⟨⟨⟨.OtherKind, .Cpu⟩, by simp, rfl⟩,
   unsupported_kind_fail_fast [⟨.OtherKind, .Cpu⟩] dummyModel
     [⟨"all-minilm-l12-v2", ["Hello, world!"]⟩]
     ⟨⟨.OtherKind, .Cpu⟩, by simp, rfl⟩⟩

/-- Claim C2, counterexample: when the enqueue fails, the call does return —
with `InternalError("channel closed unexpectedly")` — rather than waiting
forever on the reply channel. -/
theorem enqueue_failure_call_returns :
    generate_embeddings false (.sent (.ok []))
      = .error (.InternalError "channel closed unexpectedly") := rfl

/-- Claim C2, amended: a failed enqueue is tolerated silently — no
`QueueFull`/backpressure error is surfaced at enqueue time — but the dropped
message closes the reply channel, so the caller does not wait forever:
whatever the worker would have replied, `generate_embeddings` returns
`InternalError("channel closed unexpectedly")`. -/
theorem enqueue_failure_internal_error (w : Reply) :
    generate_embeddings false w
      = .error (.InternalError "channel closed unexpectedly") := rfl

/-- Claim C3, counterexample: a request queued under a failed Loading phase
gets zero responses sent on its reply channel — the slot is `closed`, not a
sent response. -/
theorem loading_failure_zero_replies :
    (runner (.ok dummyModel) [⟨.OtherKind, .Cpu⟩]
        [⟨"all-minilm-l12-v2", ["Hello, world!"]⟩]).snd = [.closed] ∧
    Reply.isSent .closed = false :=
  ⟨rfl, rfl⟩

/-- Claim C3, amended: every request placed on the queue has exactly one
reply slot, and a response is sent on it exactly when the Loading phase
succeeded; under a failed Loading phase queued requests get zero sends
(their channels close unanswered). -/
theorem one_reply_slot_per_request (c : Except String SentenceEmbeddingsModel)
    (cfg : List EmbeddingModel) (reqs : List Request) :
    ((runner c cfg reqs).snd).map Reply.isSent
      = reqs.map fun _ => exceptOk (loadModels c cfg []) := by
  cases hl : loadModels c cfg [] with
  | error e =>
    simp [runner, hl, exceptOk, List.map_map, Function.comp, Reply.isSent]
  | ok models =>
    simpa [runner, hl, exceptOk] using map_isSent_sent models reqs

/-- Claim C4: a model name absent from the registry yields
`ModelNotFound` carrying that very name, the `encode` capability is not
reached for that request, and the loop continues with the remaining
requests. -/
theorem model_not_found_behavior (models : Registry) (req : Request)
    (rest : List Request)
    (h : registryGet models req.model_name = none) :
    serveOne models req = .error (.ModelNotFound req.model_name) ∧
    encodeInvoked models req = false ∧
    serve models (req :: rest) = serveOne models req :: serve models rest ∧
    generate_embeddings true (.sent (serveOne models req))
      = .error (.ModelNotFound req.model_name) := by
  refine ⟨by simp [serveOne, h], by simp [encodeInvoked, h], rfl, ?_⟩
  simp [generate_embeddings, enqueueReply, serveOne, h]

/-- Witness for C4 at the empty registry and the name `"missing-model"`. -/
theorem model_not_found_behavior_witness :
    registryGet [] "missing-model" = none ∧
    (serveOne [] ⟨"missing-model", ["Hello, world!"]⟩
        = .error (.ModelNotFound "missing-model") ∧
     encodeInvoked [] ⟨"missing-model", ["Hello, world!"]⟩ = false ∧
     serve [] (⟨"missing-model", ["Hello, world!"]⟩ :: [])
        = serveOne [] ⟨"missing-model", ["Hello, world!"]⟩ :: serve [] [] ∧
     generate_embeddings true
        (.sent (serveOne [] ⟨"missing-model", ["Hello, world!"]⟩))
       = .error (.ModelNotFound "missing-model")) :=
  ⟨rfl, model_not_found_behavior [] ⟨"missing-model", ["Hello, world!"]⟩ [] rfl⟩

/-- Claim C5: for a model present in the registry, assuming its `encode`
returns one vector per input in input order (all of dimensionality `d`),
`generate_embeddings` returns exactly that list — `n` vectors, input order
preserved, each of dimensionality `d`. -/
theorem valid_model_pass_through (models : Registry) (req : Request)
    (m : SentenceEmbeddingsModel) (vecs : List (List Float)) (d : Nat)
    (hm : registryGet models req.model_name = some m)
    (henc : m.encode req.inputs = .ok vecs)
    (hlen : vecs.length = req.inputs.length)
    (hdim : ∀ v ∈ vecs, v.length = d) :
    generate_embeddings true (.sent (serveOne models req)) = .ok vecs ∧
    vecs.length = req.inputs.length ∧
    ∀ v ∈ vecs, v.length = d := by
  refine ⟨?_, hlen, hdim⟩
  simp [generate_embeddings, enqueueReply, serveOne, hm, henc]

/-- A stand-in model returning one empty vector per input. -/
def constModel : SentenceEmbeddingsModel := ⟨fun xs => .ok (xs.map fun _ => [])⟩

/-- A stand-in model whose inference always fails. -/
def failingModel : SentenceEmbeddingsModel :=
  ⟨fun _ => .error "inference exploded"⟩

/-- Witness for C5 at the registered name with the spec's three inputs. -/
theorem valid_model_pass_through_witness :
    registryGet [("all-minilm-l12-v2", constModel)] "all-minilm-l12-v2"
        = some constModel ∧
    constModel.encode ["Hello, world!", "Hello, NBA!", "Hello, NFL!"]
        = .ok [[], [], []] ∧
    ([[], [], []] : List (List Float)).length
        = ["Hello, world!", "Hello, NBA!", "Hello, NFL!"].length ∧
    (∀ v ∈ ([[], [], []] : List (List Float)), v.length = 0) ∧
    (generate_embeddings true (.sent (serveOne
          [("all-minilm-l12-v2", constModel)]
          ⟨"all-minilm-l12-v2",
            ["Hello, world!", "Hello, NBA!", "Hello, NFL!"]⟩))
        = .ok [[], [], []] ∧
     ([[], [], []] : List (List Float)).length
        = (Request.mk "all-minilm-l12-v2"
            ["Hello, world!", "Hello, NBA!", "Hello, NFL!"]).inputs.length ∧
     ∀ v ∈ ([[], [], []] : List (List Float)), v.length = 0) :=
  ⟨rfl, rfl, rfl, by simp,
   valid_model_pass_through [("all-minilm-l12-v2", constModel)]
     ⟨"all-minilm-l12-v2", ["Hello, world!", "Hello, NBA!", "Hello, NFL!"]⟩
     constModel [[], [], []] 0 rfl rfl rfl (by simp)⟩

/-- Claim C6: when `encode` fails on a valid, loaded model, the caller
receives `ModelError` carrying the underlying diagnostic text, and the loop
continues with the remaining requests. -/
theorem encode_failure_behavior (models : Registry) (req : Request)
    (m : SentenceEmbeddingsModel) (e : String) (rest : List Request)
    (hm : registryGet models req.model_name = some m)
    (he : m.encode req.inputs = .error e) :
    serveOne models req = .error (.ModelError e) ∧
    generate_embeddings true (.sent (serveOne models req))
      = .error (.ModelError e) ∧
    serve models (req :: rest) = serveOne models req :: serve models rest := by
  refine ⟨by simp [serveOne, hm, he], ?_, rfl⟩
  simp [generate_embeddings, enqueueReply, serveOne, hm, he]

/-- Witness for C6 with a concrete always-failing model. -/
theorem encode_failure_behavior_witness :
    registryGet [("all-minilm-l12-v2", failingModel)] "all-minilm-l12-v2"
        = some failingModel ∧
    failingModel.encode ["Hello, world!"] = .error "inference exploded" ∧
    (serveOne [("all-minilm-l12-v2", failingModel)]
          ⟨"all-minilm-l12-v2", ["Hello, world!"]⟩
        = .error (.ModelError "inference exploded") ∧
     generate_embeddings true (.sent (serveOne
          [("all-minilm-l12-v2", failingModel)]
          ⟨"all-minilm-l12-v2", ["Hello, world!"]⟩))
        = .error (.ModelError "inference exploded") ∧
     serve [("all-minilm-l12-v2", failingModel)]
          (⟨"all-minilm-l12-v2", ["Hello, world!"]⟩ :: [])
        = serveOne [("all-minilm-l12-v2", failingModel)]
            ⟨"all-minilm-l12-v2", ["Hello, world!"]⟩
          :: serve [("all-minilm-l12-v2", failingModel)] []) :=
  ⟨rfl, rfl,
   encode_failure_behavior [("all-minilm-l12-v2", failingModel)]
     ⟨"all-minilm-l12-v2", ["Hello, world!"]⟩ failingModel
     "inference exploded" [] rfl rfl⟩

/-- Claim C7: a reply channel closed without a reply makes
`generate_embeddings` return `InternalError("channel closed unexpectedly")`,
whether or not the enqueue itself succeeded. -/
theorem closed_channel_internal_error (s : Bool) :
    generate_embeddings s .closed
      = .error (.InternalError "channel closed unexpectedly") := by
  cases s <;> rfl

/-- Claim C8: once loading has succeeded, the runner returns `Ok` when the
(finite) stream of received requests — which ends exactly when every sender
has been dropped — is exhausted: a clean exit with no error. -/
theorem runner_clean_exit (c : Except String SentenceEmbeddingsModel)
    (cfg : List EmbeddingModel) (reqs : List Request) (models : Registry)
    (h : loadModels c cfg [] = .ok models) :
    (runner c cfg reqs).fst = .ok () := by
  simp [runner, h]

/-- Witness for C8 at a successfully loading configuration. -/
theorem runner_clean_exit_witness :
    loadModels (.ok dummyModel) [⟨.AllMiniLmL12V2, .Cpu⟩] []
        = .ok [("all-minilm-l12-v2", dummyModel)] ∧
    (runner (.ok dummyModel) [⟨.AllMiniLmL12V2, .Cpu⟩]
        [⟨"all-minilm-l12-v2", ["Hello, world!"]⟩]).fst = .ok () :=
  ⟨rfl,
   runner_clean_exit (.ok dummyModel) [⟨.AllMiniLmL12V2, .Cpu⟩]
     [⟨"all-minilm-l12-v2", ["Hello, world!"]⟩]
     [("all-minilm-l12-v2", dummyModel)] rfl⟩

/-- Claim C10: the Loading phase only ever inserts the key
`"all-minilm-l12-v2"`, so any other model name is absent from the registry
and `generate_embeddings` yields `ModelNotFound` for it — success is
possible only for exactly that case-sensitive name. -/
theorem registry_sole_key (c : Except String SentenceEmbeddingsModel)
    (cfg : List EmbeddingModel) (models : Registry) (req : Request)
    (h : loadModels c cfg [] = .ok models)
    (hn : req.model_name ≠ "all-minilm-l12-v2") :
    (∀ kv ∈ models, kv.1 = "all-minilm-l12-v2") ∧
    serveOne models req = .error (.ModelNotFound req.model_name) ∧
    generate_embeddings true (.sent (serveOne models req))
      = .error (.ModelNotFound req.model_name) := by
  have hkeys : ∀ kv ∈ models, kv.1 = "all-minilm-l12-v2" := by
    intro kv hkv
    rcases loadModels_keys c cfg [] models h kv hkv with hk | hmem
    · exact hk
    · simp at hmem
  have hg := registryGet_none_of_ne req.model_name models hkeys hn
  exact ⟨hkeys, by simp [serveOne, hg],
    by simp [generate_embeddings, enqueueReply, serveOne, hg]⟩

/-- Witness for C10 at the one-entry configuration and the foreign name
`"other-model"`. -/
theorem registry_sole_key_witness :
    loadModels (.ok dummyModel) [⟨.AllMiniLmL12V2, .Cpu⟩] []
        = .ok [("all-minilm-l12-v2", dummyModel)] ∧
    "other-model" ≠ "all-minilm-l12-v2" ∧
    ((∀ kv ∈ [("all-minilm-l12-v2", dummyModel)],
        kv.1 = "all-minilm-l12-v2") ∧
     serveOne [("all-minilm-l12-v2", dummyModel)]
          ⟨"other-model", ["Hello, world!"]⟩
        = .error (.ModelNotFound "other-model") ∧
     generate_embeddings true (.sent (serveOne
          [("all-minilm-l12-v2", dummyModel)]
          ⟨"other-model", ["Hello, world!"]⟩))
        = .error (.ModelNotFound "other-model")) :=
  ⟨rfl, by decide,
   registry_sole_key (.ok dummyModel) [⟨.AllMiniLmL12V2, .Cpu⟩]
     [("all-minilm-l12-v2", dummyModel)] ⟨"other-model", ["Hello, world!"]⟩
     rfl (by decide)⟩

end Indexify
